import Mathlib

/-!
Verification of the SharePoint folder-size aggregation engine.

A shallow embedding of the Python sources:
- `src/python/sharepoint_folder_size.py`  (id-addressed Graph walk, "Final Working Version")
- `src/python/sharepoint_graph_api.py`    (path-addressed Graph walk)
- `src/python/sharepoint_folder_size_v2.py` (direct REST walk)

The remote backend (HTTP + JSON) is modelled as a function from a folder
identifier and a pagination cursor to one page of results; a page is a list
of drive items.  `PageResult.err` covers both a non-200 status and a raised
exception: in the source both end the pagination loop, keeping the
accumulated items.  The `while api_url` pagination loop is embedded with a
fuel parameter (the page budget); the recursive walk likewise carries a
recursion-depth fuel.  Python integers are embedded as `Int`; Python string
operations used by the source (`startswith`, `split`, `strip`, `os.path.basename`,
truthiness) are embedded as explicit functions over `List Char` so that all
definitions are computable by the kernel.
-/

/-- Python `s.startswith(pre)` on the underlying character lists. -/
def startswithAux : List Char → List Char → Bool
  | [], _ => true
  | _ :: _, [] => false
  | c :: cs, d :: ds => c == d && startswithAux cs ds

/-- Python `s.startswith(pre)`. -/
def startswith (s pre : String) : Bool :=
  startswithAux pre.data s.data

/-- Python truthiness of a string: `""` is falsy, everything else truthy. -/
def pyTruthy (s : String) : Bool :=
  !s.data.isEmpty

/-- Python `a or b` on strings (returns `a` when truthy, else `b`). -/
def pyOr (a b : String) : String :=
  if pyTruthy a then a else b

/-- Helper for `pySplitSlash`: split a character list at `/`. -/
def splitSlashAux : List Char → List Char → List String
  | [], acc => [⟨acc.reverse⟩]
  | c :: cs, acc =>
    if c == '/' then ⟨acc.reverse⟩ :: splitSlashAux cs []
    else splitSlashAux cs (c :: acc)

/-- Python `s.split('/')`. -/
def pySplitSlash (s : String) : List String :=
  splitSlashAux s.data []

/-- Python `'/'.join(parts)`. -/
def pyJoinSlash : List String → String
  | [] => ""
  | [s] => s
  | s :: rest => s ++ "/" ++ pyJoinSlash rest

/-- Python `s.strip('/')`. -/
def pyStripSlash (s : String) : String :=
  ⟨((s.data.dropWhile (· == '/')).reverse.dropWhile (· == '/')).reverse⟩

/-- Python `os.path.basename(p)`: the part after the last `/` (the split
list is never empty, so the default is never taken). -/
def pyBasename (p : String) : String :=
  ((pySplitSlash p).getLast?).getD ""

/-- The kind of a drive item: the Python code tests `'folder' in item`
first, then `elif 'file' in item`; an item with neither key is `other`. -/
inductive ItemKind where
  | file
  | folder
  | other
deriving DecidableEq, BEq, Repr

/-- One child entry returned by a listing call (one element of the JSON
`value` array).  Fields are the ones the source reads: `id`, `name`,
`size`, `lastModifiedDateTime`, `webUrl`.  `id` is optional because the
source guards `if not folder_id`. -/
structure RemoteItem where
  kind : ItemKind
  id : Option String
  name : String
  size : Int
  lastModified : String
  webUrl : String
deriving DecidableEq, Repr

/-- Result of one page request: `ok items next` is a 200 response with the
`value` array and the optional `@odata.nextLink` cursor; `err` is a non-200
status or a raised exception (both end the loop in the source). -/
inductive PageResult where
  | ok (items : List RemoteItem) (next : Option String)
  | err
deriving DecidableEq, Repr

/-- The drive-scoped backend of `sharepoint_folder_size.py`: `listChildren`
maps a folder id and a cursor (`none` = first page, `some u` = a
`@odata.nextLink`) to one page.  The `site_id`/`drive_id` URL components are
fixed for a whole walk and are absorbed into the backend value. -/
structure Backend where
  listChildren : String → Option String → PageResult

/-- The file predicate of the `get_folder_children` loop: `elif 'file' in item`. -/
def isFileItem (it : RemoteItem) : Bool :=
  it.kind == ItemKind.file

/-- The folder-admission predicate of the `get_folder_children` loop
(line 147): `'folder' in item` and
`not (item['name'].startswith('_') or item['name'] == 'Forms')`. -/
def keepFolderItem (it : RemoteItem) : Bool :=
  it.kind == ItemKind.folder && !(startswith it.name "_" || it.name == "Forms")

/-- The `while api_url` pagination loop of `GraphClient.get_folder_children`
(`sharepoint_folder_size.py` lines 136-158), with the two accumulators
`files` and `folders` and a page-budget fuel. -/
def getChildrenLoop (B : Backend) (fid : String) :
    Nat → Option String → List RemoteItem → List RemoteItem →
    List RemoteItem × List RemoteItem
  | 0, _, files, folders => (files, folders)
  | fuel + 1, cur, files, folders =>
    match B.listChildren fid cur with
    | .err => (files, folders)
    | .ok items next =>
      let files' := files ++ items.filter isFileItem
      let folders' := folders ++ items.filter keepFolderItem
      match next with
      | none => (files', folders')
      | some u => getChildrenLoop B fid fuel (some u) files' folders'

/-- `GraphClient.get_folder_children` (`sharepoint_folder_size.py` 129-160). -/
def get_folder_children (B : Backend) (fuel : Nat) (fid : String) :
    List RemoteItem × List RemoteItem :=
  getChildrenLoop B fid fuel none [] []

/-- The `file_info` record built for each file
(`sharepoint_folder_size.py` 189-194). -/
structure FileRecord where
  name : String
  size : Int
  last_modified : String
  path : String
deriving DecidableEq, Repr

/-- One folder of the output tree: the `result` dict of
`GraphClient.calculate_folder_size` (`sharepoint_folder_size.py` 170-179),
with keys `id`, `path`, `name`, `total_size`, `file_count`, `folder_count`,
`files`, `subfolders`. -/
inductive ReportNode where
  | mk (id : Option String) (path : String) (name : String)
       (total_size : Int) (file_count : Int) (folder_count : Int)
       (files : List FileRecord) (subfolders : List ReportNode)

def ReportNode.id : ReportNode → Option String
  | .mk i _ _ _ _ _ _ _ => i

def ReportNode.path : ReportNode → String
  | .mk _ p _ _ _ _ _ _ => p

def ReportNode.name : ReportNode → String
  | .mk _ _ nm _ _ _ _ _ => nm

def ReportNode.total_size : ReportNode → Int
  | .mk _ _ _ ts _ _ _ _ => ts

def ReportNode.file_count : ReportNode → Int
  | .mk _ _ _ _ fc _ _ _ => fc

def ReportNode.folder_count : ReportNode → Int
  | .mk _ _ _ _ _ dc _ _ => dc

def ReportNode.files : ReportNode → List FileRecord
  | .mk _ _ _ _ _ _ fs _ => fs

def ReportNode.subfolders : ReportNode → List ReportNode
  | .mk _ _ _ _ _ _ _ sf => sf

/-- The freshly initialized `result` dict
(`sharepoint_folder_size.py` 170-179): id, webUrl as path, name, all
counters zero, empty lists. -/
def emptyResult (it : RemoteItem) : ReportNode :=
  .mk it.id it.webUrl it.name 0 0 0 [] []

/-- Python `folder_id = folder_item.get('id')` followed by the truthiness
guard `if not folder_id` (lines 166, 181): a missing id or an empty-string
id is unusable. -/
def usableId : Option String → Option String
  | none => none
  | some s => if s.data.isEmpty then none else some s

/-- The `FileRecord` built from a drive item (lines 189-194). -/
def toFileRecord (it : RemoteItem) : FileRecord :=
  ⟨it.name, it.size, it.lastModified, it.webUrl⟩

/-- One iteration of the file loop (lines 188-197): append the record, add
the size, bump the file counter. -/
def addFileItem (r : ReportNode) (f : RemoteItem) : ReportNode :=
  match r with
  | .mk i p nm ts fc dc fs sf =>
    .mk i p nm (ts + f.size) (fc + 1) dc (fs ++ [toFileRecord f]) sf

/-- The file loop of `calculate_folder_size` (lines 188-197). -/
def processFiles (r : ReportNode) (files : List RemoteItem) : ReportNode :=
  files.foldl addFileItem r

/-- `result['folder_count'] = len(folders)` (line 203). -/
def setFolderCount (r : ReportNode) (n : Int) : ReportNode :=
  match r with
  | .mk i p nm ts fc _ fs sf => .mk i p nm ts fc n fs sf

/-- One iteration of the subfolder loop (lines 204-214): append the child
node and fold its three counters into the parent. -/
def addSubfolder (r : ReportNode) (s : ReportNode) : ReportNode :=
  match r with
  | .mk i p nm ts fc dc fs sf =>
    .mk i p nm (ts + s.total_size) (fc + s.file_count) (dc + s.folder_count)
      fs (sf ++ [s])

/-- `GraphClient.calculate_folder_size` (`sharepoint_folder_size.py`
162-219): build the empty result, return it early when the id is unusable,
otherwise fetch the children, fold the files, set `folder_count` to the
number of admitted subfolders, and recurse into each subfolder.  `pf` is
the page budget per folder, the `Nat` argument the recursion-depth fuel. -/
def calculate_folder_size (B : Backend) (pf : Nat) :
    Nat → RemoteItem → ReportNode
  | 0, it => emptyResult it
  | fuel + 1, it =>
    match usableId it.id with
    | none => emptyResult it
    | some fid =>
      let fd := get_folder_children B pf fid
      let r := processFiles (emptyResult it) fd.1
      let r := setFolderCount r (fd.2.length : Int)
      fd.2.foldl (fun r d => addSubfolder r (calculate_folder_size B pf fuel d)) r

/-! ### Sums used by the aggregation law -/
/-- Sum of the `size` fields of a list of drive items. -/
def sumItemSizes (l : List RemoteItem) : Int :=
  (l.map RemoteItem.size).sum

/-- Sum of the `size` fields of a list of file records. -/
def sumFileSizes (l : List FileRecord) : Int :=
  (l.map FileRecord.size).sum

/-- Sum of the `total_size` fields of a list of nodes. -/
def sumTotals (l : List ReportNode) : Int :=
  (l.map ReportNode.total_size).sum

/-- Sum of the `file_count` fields of a list of nodes. -/
def sumFileCounts (l : List ReportNode) : Int :=
  (l.map ReportNode.file_count).sum

/-- Sum of the `folder_count` fields of a list of nodes. -/
def sumFolderCounts (l : List ReportNode) : Int :=
  (l.map ReportNode.folder_count).sum

/-! ### The aggregation law (claim C1) -/
/-- The three aggregation equations at one node. -/
def aggOk (n : ReportNode) : Prop :=
  n.total_size = sumFileSizes n.files + sumTotals n.subfolders ∧
  n.file_count = (n.files.length : Int) + sumFileCounts n.subfolders ∧
  n.folder_count = (n.subfolders.length : Int) + sumFolderCounts n.subfolders

/-- A predicate holding at every node of a report tree. -/
inductive AllNodes (P : ReportNode → Prop) : ReportNode → Prop where
  | node : ∀ n, P n → (∀ s ∈ n.subfolders, AllNodes P s) → AllNodes P n

/-! ### Characterization of the pagination loop (claims C2 and C5) -/
/-- All items delivered by the backend while following the cursor chain
starting at `cur`, before any filtering. -/
def fetchedFrom (B : Backend) (fid : String) : Nat → Option String → List RemoteItem
  | 0, _ => []
  | fuel + 1, cur =>
    match B.listChildren fid cur with
    | .err => []
    | .ok items next =>
      match next with
      | none => items
      | some u => items ++ fetchedFrom B fid fuel (some u)

/-- All items of the pages fetched for a folder id. -/
def fetchedItems (B : Backend) (fuel : Nat) (fid : String) : List RemoteItem :=
  fetchedFrom B fid fuel none

/-! ### Claim C5: pagination correctness -/
/-- The backend serves the page sequence `ps` for folder `fid` along a
cursor chain starting at `cur`: each page is returned with the cursor of
the next call, and the last page is returned with no cursor. -/
def ServesFrom (B : Backend) (fid : String) : Option String → List (List RemoteItem) → Prop
  | _, [] => False
  | cur, [p] => B.listChildren fid cur = .ok p none
  | cur, p :: q :: rest =>
    ∃ c, B.listChildren fid cur = .ok p (some c) ∧
      ServesFrom B fid (some c) (q :: rest)

/-! ### Claim C3: failure isolation for non-root folders -/
/-- The folder ids on which `get_folder_children` is invoked during a walk. -/
def walkIds (B : Backend) (pf : Nat) : Nat → RemoteItem → List String
  | 0, _ => []
  | fuel + 1, it =>
    match usableId it.id with
    | none => []
    | some fid =>
      fid :: ((get_folder_children B pf fid).2.map
        (fun d => walkIds B pf fuel d)).flatten

mutual
/-- Re-aggregate a report tree with every subtree rooted at a node whose id
is `badId` replaced by its zero-contribution empty node: the failed node
keeps its identity fields and gets zero counters and empty lists, and every
ancestor's counters are re-folded from the zeroed children. -/
def zeroOut (badId : String) : ReportNode → ReportNode
  | .mk i p nm _ _ _ fs sf =>
    if i = some badId then .mk i p nm 0 0 0 [] []
    else
      let sf' := zeroOutList badId sf
      .mk i p nm (sumFileSizes fs + sumTotals sf')
        ((fs.length : Int) + sumFileCounts sf')
        ((sf'.length : Int) + sumFolderCounts sf') fs sf'
def zeroOutList (badId : String) : List ReportNode → List ReportNode
  | [] => []
  | n :: rest => zeroOut badId n :: zeroOutList badId rest
end

/-! ### Concrete walks used by counterexamples and witnesses -/
def itF1 : RemoteItem := ⟨.file, some "f1", "f1.txt", 10, "", "u/f1"⟩

def itA : RemoteItem := ⟨.folder, some "a", "A", 0, "", "u/A"⟩

def itC : RemoteItem := ⟨.folder, some "c", "C", 0, "", "u/C"⟩

def itF2 : RemoteItem := ⟨.file, some "f2", "f2.txt", 100, "", "u/A/f2"⟩

def itRoot : RemoteItem := ⟨.folder, some "r", "Root", 0, "", "u/Root"⟩

/-- Folder `r` contains file `f1` (10 bytes) and folders `A` and `C`;
`A` contains file `f2` (100 bytes); `C` is empty. -/
def demoB : Backend :=
  ⟨fun fid _ =>
    if fid = "r" then .ok [itF1, itA, itC] none
    else if fid = "a" then .ok [itF2] none
    else if fid = "c" then .ok [] none
    else .err⟩

/-- `demoB` with `listChildren` failing for folder id `a`. -/
def demoBFail : Backend :=
  ⟨fun fid cur => if fid = "a" then .err else demoB.listChildren fid cur⟩

/-! ### Claim C9: folder entries with no identifier -/
def itNoId : RemoteItem := ⟨.folder, none, "NoId", 0, "", "u/NoId"⟩

def itParent : RemoteItem := ⟨.folder, some "p", "P", 0, "", "u/P"⟩

/-- Folder `p` has one child folder whose entry carries no id. -/
def noIdB : Backend :=
  ⟨fun fid _ => if fid = "p" then .ok [itNoId] none else .err⟩

/-! ### Claim C10: totality of the aggregator -/
/-- The backend delivers only non-negative file sizes (the data-model
contract for `RemoteEntry.size`). -/
def SizesNonneg (B : Backend) : Prop :=
  ∀ fid cur items next, B.listChildren fid cur = .ok items next →
    ∀ x ∈ items, 0 ≤ x.size

/-- Non-negativity of the three counters at one node. -/
def countersOk (n : ReportNode) : Prop :=
  0 ≤ n.total_size ∧ 0 ≤ n.file_count ∧ 0 ≤ n.folder_count

def pgF1 : RemoteItem := ⟨.file, some "p1", "a.txt", 1, "", "u/a"⟩

def pgF2 : RemoteItem := ⟨.file, some "p2", "b.txt", 2, "", "u/b"⟩

def pgD1 : RemoteItem := ⟨.folder, some "p3", "D1", 0, "", "u/D1"⟩

def pgF3 : RemoteItem := ⟨.file, some "p4", "c.txt", 3, "", "u/c"⟩

def pgD2 : RemoteItem := ⟨.folder, some "p5", "D2", 0, "", "u/D2"⟩

/-- A backend serving folder `f` across three chained pages of sizes
2, 2 and 1. -/
def pagedB : Backend :=
  ⟨fun fid cur =>
    if fid = "f" then
      match cur with
      | none => .ok [pgF1, pgF2] (some "c1")
      | some c =>
        if c = "c1" then .ok [pgD1, pgF3] (some "c2")
        else if c = "c2" then .ok [pgD2] none
        else .err
    else .err⟩

/-! ### The path-addressed variant (`sharepoint_graph_api.py`) and the
REST variant (`sharepoint_folder_size_v2.py`) -/
/-- Node shape of the path-addressed and REST variants: the same `result`
dict but without an `id` key (`sharepoint_graph_api.py` 173-181,
`sharepoint_folder_size_v2.py` 125-133). -/
inductive VNode where
  | mk (path : String) (name : String)
       (total_size : Int) (file_count : Int) (folder_count : Int)
       (files : List FileRecord) (subfolders : List VNode)

def VNode.path : VNode → String
  | .mk p _ _ _ _ _ _ => p

def VNode.name : VNode → String
  | .mk _ nm _ _ _ _ _ => nm

def VNode.total_size : VNode → Int
  | .mk _ _ ts _ _ _ _ => ts

def VNode.file_count : VNode → Int
  | .mk _ _ _ fc _ _ _ => fc

def VNode.folder_count : VNode → Int
  | .mk _ _ _ _ dc _ _ => dc

def VNode.files : VNode → List FileRecord
  | .mk _ _ _ _ _ fs _ => fs

def VNode.subfolders : VNode → List VNode
  | .mk _ _ _ _ _ _ sf => sf

/-- The path-addressed Graph backend of `sharepoint_graph_api.py`:
`listByPath key cursor` is one page of `root/children` (`key = none`) or
`root:/{path}:/children` (`key = some path`). -/
structure PathBackend where
  listByPath : Option String → Option String → PageResult

/-- The site-prefix cleaning of `get_folder_items`
(`sharepoint_graph_api.py` 124-128). -/
def cleanSitePath (folder_path : String) : String :=
  if startswith folder_path "/sites/" then
    (if (pySplitSlash folder_path).length > 3
     then pyJoinSlash ((pySplitSlash folder_path).drop 3)
     else "")
  else folder_path

/-- URL selection of `get_folder_items` (`sharepoint_graph_api.py`
130-135): a non-root path addresses `root:/{path}:/children`, everything
else the drive root. -/
def GA.pathKey (folder_path : String) : Option String :=
  let fp := cleanSitePath folder_path
  if pyTruthy fp && !(fp == "/" || fp == "" || fp == "Shared Documents")
  then some fp else none

/-- The pagination loop of `get_folder_items` (`sharepoint_graph_api.py`
140-164); no name filter is applied at fetch time in this variant. -/
def GA.getItemsLoop (B : PathBackend) (key : Option String) :
    Nat → Option String → List RemoteItem → List RemoteItem →
    List RemoteItem × List RemoteItem
  | 0, _, files, folders => (files, folders)
  | fuel + 1, cur, files, folders =>
    match B.listByPath key cur with
    | .err => (files, folders)
    | .ok items next =>
      let files' := files ++ items.filter isFileItem
      let folders' := folders ++ items.filter (fun x => x.kind == ItemKind.folder)
      match next with
      | none => (files', folders')
      | some u => GA.getItemsLoop B key fuel (some u) files' folders'

/-- `GraphClient.get_folder_items` (`sharepoint_graph_api.py` 122-165). -/
def GA.get_folder_items (B : PathBackend) (fuel : Nat) (folder_path : String) :
    List RemoteItem × List RemoteItem :=
  GA.getItemsLoop B (GA.pathKey folder_path) fuel none [] []

/-- `display_name = folder_name or os.path.basename(folder_path) or 'Root'`
(`sharepoint_graph_api.py` 170). -/
def GA.displayName (folder_path : String) (folder_name : Option String) : String :=
  pyOr (folder_name.getD "") (pyOr (pyBasename folder_path) "Root")

/-- The freshly initialized result dict of the no-id variants. -/
def GA.emptyNode (p nm : String) : VNode :=
  .mk p nm 0 0 0 [] []

/-- One iteration of the file loop (`sharepoint_graph_api.py` 187-196). -/
def GA.addFile (r : VNode) (f : RemoteItem) : VNode :=
  match r with
  | .mk p nm ts fc dc fs sf =>
    .mk p nm (ts + f.size) (fc + 1) dc (fs ++ [toFileRecord f]) sf

/-- Folding one subfolder result into the parent
(`sharepoint_graph_api.py` 217-222). -/
def GA.addSub (r : VNode) (s : VNode) : VNode :=
  match r with
  | .mk p nm ts fc dc fs sf =>
    .mk p nm (ts + s.total_size) (fc + s.file_count) (dc + s.folder_count)
      fs (sf ++ [s])

/-- `result['folder_count'] += 1` (`sharepoint_graph_api.py` 208). -/
def GA.incFolderCount (r : VNode) : VNode :=
  match r with
  | .mk p nm ts fc dc fs sf => .mk p nm ts fc (dc + 1) fs sf

/-- `GraphClient.calculate_folder_size` of `sharepoint_graph_api.py`
(167-227).  Note line 211: the path passed to the recursive call is the
bare folder name (`subfolder_path = folder_name`), which the backend
resolves relative to the drive root. -/
def GA.calculate_folder_size (B : PathBackend) (pf : Nat) :
    Nat → String → Option String → VNode
  | 0, folder_path, folder_name =>
    GA.emptyNode folder_path (GA.displayName folder_path folder_name)
  | fuel + 1, folder_path, folder_name =>
    let fd := GA.get_folder_items B pf folder_path
    let r := fd.1.foldl GA.addFile
      (GA.emptyNode folder_path (GA.displayName folder_path folder_name))
    fd.2.foldl (fun r d =>
      if startswith d.name "_" || d.name == "Forms" then r
      else GA.addSub (GA.incFolderCount r)
        (GA.calculate_folder_size B pf fuel d.name (some d.name))) r

/-- REST file entry of v2 (`d.results` element of the `/Files` call). -/
structure SPFile where
  Name : String
  Length : Int
  TimeLastModified : String
  ServerRelativeUrl : String
deriving DecidableEq, Repr

/-- REST folder entry of v2 (`d.results` element of the `/Folders` call). -/
structure SPFolder where
  Name : String
  ServerRelativeUrl : String
deriving DecidableEq, Repr

/-- The REST backend of `sharepoint_folder_size_v2.py`: the two GET calls
of `get_folder_items`; `none` models a non-200 status. -/
structure RestBackend where
  getFiles : String → Option (List SPFile)
  getFolders : String → Option (List SPFolder)

/-- `SharePointClient.get_folder_items` (`sharepoint_folder_size_v2.py`
93-118): fetch files and folders, filter out system folders. -/
def V2.get_folder_items (B : RestBackend) (folder_path : String) :
    List SPFile × List SPFolder :=
  let files := match B.getFiles folder_path with
    | some fs => fs
    | none => []
  let folders := match B.getFolders folder_path with
    | some ds => ds.filter (fun f => !(startswith f.Name "_") && f.Name != "Forms")
    | none => []
  (files, folders)

/-- One iteration of the v2 file loop (`sharepoint_folder_size_v2.py`
139-148). -/
def V2.addFile (r : VNode) (f : SPFile) : VNode :=
  match r with
  | .mk p nm ts fc dc fs sf =>
    .mk p nm (ts + f.Length) (fc + 1) dc
      (fs ++ [⟨f.Name, f.Length, f.TimeLastModified, f.ServerRelativeUrl⟩]) sf

/-- `SharePointClient.calculate_folder_size`
(`sharepoint_folder_size_v2.py` 120-170). -/
def V2.calculate_folder_size (B : RestBackend) : Nat → String → VNode
  | 0, folder_path =>
    GA.emptyNode folder_path (pyOr (pyBasename folder_path) "Root")
  | fuel + 1, folder_path =>
    let fd := V2.get_folder_items B folder_path
    let r := fd.1.foldl V2.addFile
      (GA.emptyNode folder_path (pyOr (pyBasename folder_path) "Root"))
    fd.2.foldl (fun r d =>
      GA.addSub (GA.incFolderCount r)
        (V2.calculate_folder_size B fuel d.ServerRelativeUrl)) r

/-- `FolderSizeCalculator.analyze_folder` (`sharepoint_folder_size_v2.py`
187-197): no resolution step, the result of the walk is always returned. -/
def V2.analyze_folder (B : RestBackend) (fuel : Nat) (folder_path : String) :
    Option VNode :=
  some (V2.calculate_folder_size B fuel folder_path)

/-! ### `FolderSizeCalculator.analyze_site` of `sharepoint_folder_size.py` -/
/-- The resolution interface used by `analyze_site`:
`get_site_and_drive` (lines 71-109, returning `(site_id, drive_id,
drive_name)` or `(None, None, None)`) and `get_drive_item_by_path`
(lines 111-127, `None` on a non-200 status or an exception). -/
structure Resolver where
  get_site_and_drive : String → Option String × Option String × Option String
  get_drive_item_by_path : String → String → String → Option RemoteItem

/-- Python truthiness of an optional string. -/
def pyTruthyOpt : Option String → Bool
  | none => false
  | some s => pyTruthy s

/-- The folder-path cleanup of `analyze_site`
(`sharepoint_folder_size.py` 247-254). -/
def cleanFolderPath (folder_path : String) : String :=
  if pyTruthy folder_path then
    pyStripSlash
      (if startswith folder_path "/sites/" then
        (if (pySplitSlash folder_path).length > 3
         then pyJoinSlash ((pySplitSlash folder_path).drop 3)
         else "")
      else folder_path)
  else folder_path

/-- `FolderSizeCalculator.analyze_site` (`sharepoint_folder_size.py`
236-278): resolve site and drive, clean the folder path, resolve the root
folder item, then walk.  Returns `None` when any resolution step fails. -/
def analyze_site (R : Resolver) (B : Backend) (pf fuel : Nat)
    (site_url folder_path : String) : Option ReportNode :=
  let sd := R.get_site_and_drive site_url
  if !(pyTruthyOpt sd.1) || !(pyTruthyOpt sd.2.1) then none
  else
    let sid := sd.1.getD ""
    let did := sd.2.1.getD ""
    let fp := cleanFolderPath folder_path
    let folder_item :=
      if !(pyTruthy fp) || fp == "" || fp == "Shared Documents" || fp == "Documents"
      then R.get_drive_item_by_path sid did ""
      else R.get_drive_item_by_path sid did fp
    match folder_item with
    | none => none
    | some item => some (calculate_folder_size B pf fuel item)

/-- A resolver whose site/drive resolution fails. -/
def failResolver : Resolver :=
  ⟨fun _ => (none, none, none), fun _ _ _ => none⟩

/-- A resolver that resolves site and drive but finds no folder item. -/
def itemFailResolver : Resolver :=
  ⟨fun _ => (some "sid", some "did", some "Documents"), fun _ _ _ => none⟩

/-- A REST backend answering not-found (non-200) for every path. -/
def notFoundRest : RestBackend :=
  ⟨fun _ => none, fun _ => none⟩

/-! ### Claim C6: the recursion target of the path-addressed variant -/
def gaA : RemoteItem := ⟨.folder, some "ida", "A", 0, "", "u/A"⟩

def gaB : RemoteItem := ⟨.folder, some "idb", "B", 0, "", "u/A/B"⟩

def gaF2 : RemoteItem := ⟨.file, some "f2", "f2.txt", 100, "", "u/A/B/f2"⟩

/-- A drive whose root contains folder `A`, `A` contains folder `B`, and
`A/B` contains a 100-byte file; addressed by root-relative path.  A bare
path `B` does not exist at the root, so the backend answers with an
error (404). -/
def gaBackend : PathBackend :=
  ⟨fun key _ =>
    match key with
    | none => .ok [gaA] none
    | some p =>
      if p = "A" then .ok [gaB] none
      else if p = "A/B" then .ok [gaF2] none
      else .err⟩

/-- The same hierarchy addressed by folder id, as
`sharepoint_folder_size.py` does. -/
def idBackend : Backend :=
  ⟨fun fid _ =>
    if fid = "root" then .ok [gaA] none
    else if fid = "ida" then .ok [gaB] none
    else if fid = "idb" then .ok [gaF2] none
    else .err⟩

def itGaRoot : RemoteItem := ⟨.folder, some "root", "Root", 0, "", "u"⟩

/-- A one-page constant backend with a single 10-byte file. -/
def wB : Backend := ⟨fun _ _ => .ok [itF1] none⟩

/-! ### Claim C7: structured-serialize round trip

`export_to_json` (`sharepoint_folder_size.py` 348-353) writes the nested
`result` dict with `json.dump`, preserving key order and nesting; the JSON
value it emits is modelled by `Json` and `serializeNode`.  The repository
contains no deserializer, so the inverse is modelled from the spec. -/
/-- A JSON value, as produced by `json.dump` of the result dict. -/
inductive Json where
  | null
  | str (s : String)
  | int (n : Int)
  | arr (elems : List Json)
  | obj (fields : List (String × Json))

/-- The `id` value: Python `None` becomes JSON null. -/
def serializeId : Option String → Json
  | none => .null
  | some s => .str s

/-- One `file_info` dict, keys in insertion order
(`sharepoint_folder_size.py` 189-194). -/
def serializeFile (f : FileRecord) : Json :=
  .obj [("name", .str f.name), ("size", .int f.size),
    ("last_modified", .str f.last_modified), ("path", .str f.path)]

def serializeFiles : List FileRecord → List Json
  | [] => []
  | f :: rest => serializeFile f :: serializeFiles rest

mutual
/-- The nested `result` dict, keys in insertion order
(`sharepoint_folder_size.py` 170-179). -/
def serializeNode : ReportNode → Json
  | .mk i p nm ts fc dc fs sf =>
    .obj [("id", serializeId i), ("path", .str p), ("name", .str nm),
      ("total_size", .int ts), ("file_count", .int fc),
      ("folder_count", .int dc), ("files", .arr (serializeFiles fs)),
      ("subfolders", .arr (serializeNodes sf))]
def serializeNodes : List ReportNode → List Json
  | [] => []
  | n :: rest => serializeNode n :: serializeNodes rest
end

/-- Modelled from the spec: the deserializer required by the §8 round-trip
law (the source only writes JSON; no reader exists in the repository).
Inverse of `serializeId`. -/
def deserializeId : Json → Option (Option String)
  | .null => some none
  | .str s => some (some s)
  | _ => none

/-- Modelled from the spec: deserialization of one file record. -/
def deserializeFile : Json → Option FileRecord
  | .obj [("name", .str nm), ("size", .int sz),
      ("last_modified", .str lm), ("path", .str p)] => some ⟨nm, sz, lm, p⟩
  | _ => none

/-- Modelled from the spec: deserialization of a file list. -/
def deserializeFiles : List Json → Option (List FileRecord)
  | [] => some []
  | j :: rest =>
    match deserializeFile j, deserializeFiles rest with
    | some f, some fs => some (f :: fs)
    | _, _ => none

mutual
/-- Modelled from the spec: the deserializer for the structured export —
it must reproduce an identical tree (round-trip law of §8): same nesting,
same field values, same ordering of files and subfolders. -/
def deserializeNode : Json → Option ReportNode
  | .obj [("id", ji), ("path", .str p), ("name", .str nm),
      ("total_size", .int ts), ("file_count", .int fc),
      ("folder_count", .int dc), ("files", .arr jfs),
      ("subfolders", .arr jsf)] =>
    match deserializeId ji, deserializeFiles jfs, deserializeNodes jsf with
    | some i, some fs, some sf => some (.mk i p nm ts fc dc fs sf)
    | _, _, _ => none
  | _ => none
/-- Modelled from the spec: deserialization of a subfolder list. -/
def deserializeNodes : List Json → Option (List ReportNode)
  | [] => some []
  | j :: rest =>
    match deserializeNode j, deserializeNodes rest with
    | some n, some ns => some (n :: ns)
    | _, _ => none
end

/-! ### Claim C8: tabular (CSV) flatten

`export_to_csv` (`sharepoint_folder_size.py` 311-346) writes a header row
and then calls the recursive `write_folder_data`, which appends one row
for the folder, one row per direct file, and then recurses into each
subfolder.  The row cells are the strings handed to `csv.writer`;
`format_size` works on floats and is abstracted as an arbitrary
formatting function `fmt`. -/
/-- The header row (`sharepoint_folder_size.py` 315). -/
def csvHeader : List String :=
  ["Path", "Name", "Type", "Size (bytes)", "Size (formatted)",
   "File Count", "Folder Count"]

/-- The folder row of `write_folder_data` (lines 318-326). -/
def folderRow (fmt : Int → String) (n : ReportNode) : List String :=
  [n.path, n.name, "Folder", toString n.total_size, fmt n.total_size,
   toString n.file_count, toString n.folder_count]

/-- One file row of `write_folder_data` (lines 329-338): the file's own
size and zero in both count columns. -/
def fileRow (fmt : Int → String) (f : FileRecord) : List String :=
  [f.path, f.name, "File", toString f.size, fmt f.size,
   toString (0 : Int), toString (0 : Int)]

mutual
/-- `write_folder_data` (lines 317-342), with the rows written so far as
the accumulated writer state. -/
def write_folder_data (fmt : Int → String) (acc : List (List String)) :
    ReportNode → List (List String)
  | .mk i p nm ts fc dc fs sf =>
    let acc1 := acc ++ [folderRow fmt (.mk i p nm ts fc dc fs sf)]
    let acc2 := fs.foldl (fun a f => a ++ [fileRow fmt f]) acc1
    writeSubfolders fmt acc2 sf
/-- The subfolder loop of `write_folder_data` (lines 341-342). -/
def writeSubfolders (fmt : Int → String) (acc : List (List String)) :
    List ReportNode → List (List String)
  | [] => acc
  | s :: rest => writeSubfolders fmt (write_folder_data fmt acc s) rest
end

/-- `export_to_csv` (lines 311-346): header row, then the recursive body. -/
def export_to_csv (fmt : Int → String) (result : ReportNode) :
    List (List String) :=
  write_folder_data fmt [csvHeader] result

mutual
/-- The spec's description of the tabular flatten (§4.5, §6): a pre-order
traversal emitting one row per folder carrying its own aggregated totals,
immediately followed by one row per direct file carrying the file's own
size and zeroed counts, then the rows of each subfolder in order. -/
def flattenSpec (fmt : Int → String) : ReportNode → List (List String)
  | .mk i p nm ts fc dc fs sf =>
    folderRow fmt (.mk i p nm ts fc dc fs sf)
      :: (fs.map (fileRow fmt) ++ flattenSpecList fmt sf)
def flattenSpecList (fmt : Int → String) : List ReportNode → List (List String)
  | [] => []
  | s :: rest => flattenSpec fmt s ++ flattenSpecList fmt rest
end

/-! ## Theorems -/

@[simp] theorem ReportNode.id_mk (i p nm ts fc dc fs sf) :
    (ReportNode.mk i p nm ts fc dc fs sf).id = i := rfl

@[simp] theorem ReportNode.path_mk (i p nm ts fc dc fs sf) :
    (ReportNode.mk i p nm ts fc dc fs sf).path = p := rfl

@[simp] theorem ReportNode.name_mk (i p nm ts fc dc fs sf) :
    (ReportNode.mk i p nm ts fc dc fs sf).name = nm := rfl

@[simp] theorem ReportNode.total_size_mk (i p nm ts fc dc fs sf) :
    (ReportNode.mk i p nm ts fc dc fs sf).total_size = ts := rfl

@[simp] theorem ReportNode.file_count_mk (i p nm ts fc dc fs sf) :
    (ReportNode.mk i p nm ts fc dc fs sf).file_count = fc := rfl

@[simp] theorem ReportNode.folder_count_mk (i p nm ts fc dc fs sf) :
    (ReportNode.mk i p nm ts fc dc fs sf).folder_count = dc := rfl

@[simp] theorem ReportNode.files_mk (i p nm ts fc dc fs sf) :
    (ReportNode.mk i p nm ts fc dc fs sf).files = fs := rfl

@[simp] theorem ReportNode.subfolders_mk (i p nm ts fc dc fs sf) :
    (ReportNode.mk i p nm ts fc dc fs sf).subfolders = sf := rfl

/-! ### Closed forms of the two loops of `calculate_folder_size` -/
theorem processFiles_mk (files : List RemoteItem) (i p nm ts fc dc fs sf) :
    processFiles (.mk i p nm ts fc dc fs sf) files =
      .mk i p nm (ts + sumItemSizes files) (fc + files.length) dc
        (fs ++ files.map toFileRecord) sf := by
  induction files generalizing ts fc fs with
  | nil => simp [processFiles, sumItemSizes]
  | cons f rest ih =>
    simp only [processFiles, List.foldl_cons]
    rw [show addFileItem (ReportNode.mk i p nm ts fc dc fs sf) f =
          ReportNode.mk i p nm (ts + f.size) (fc + 1) dc
            (fs ++ [toFileRecord f]) sf from rfl]
    have h2 := ih (ts + f.size) (fc + 1) (fs ++ [toFileRecord f])
    simp only [processFiles] at h2
    rw [h2]
    simp only [sumItemSizes, List.map_cons, List.sum_cons, List.length_cons,
      ReportNode.mk.injEq, List.append_assoc, List.singleton_append,
      true_and, and_true, heq_eq_eq]
    push_cast
    omega

theorem foldl_addSubfolder_mk (recur : RemoteItem → ReportNode)
    (ds : List RemoteItem) (i p nm ts fc dc fs sf) :
    ds.foldl (fun r d => addSubfolder r (recur d)) (.mk i p nm ts fc dc fs sf) =
      .mk i p nm (ts + sumTotals (ds.map recur)) (fc + sumFileCounts (ds.map recur))
        (dc + sumFolderCounts (ds.map recur)) fs (sf ++ ds.map recur) := by
  induction ds generalizing ts fc dc sf with
  | nil => simp [sumTotals, sumFileCounts, sumFolderCounts]
  | cons d rest ih =>
    rw [List.foldl_cons]
    rw [show addSubfolder (ReportNode.mk i p nm ts fc dc fs sf) (recur d) =
          ReportNode.mk i p nm (ts + (recur d).total_size)
            (fc + (recur d).file_count) (dc + (recur d).folder_count)
            fs (sf ++ [recur d]) from rfl]
    rw [ih]
    simp only [sumTotals, sumFileCounts, sumFolderCounts, List.map_cons,
      List.sum_cons, ReportNode.mk.injEq, List.append_assoc,
      List.singleton_append, true_and, and_true, heq_eq_eq]
    omega

/-- Closed form of `calculate_folder_size` when the folder id is usable:
the node is exactly the aggregation of the fetched files and the
recursively computed subfolder nodes. -/
theorem calculate_succ (B : Backend) (pf fuel : Nat) (it : RemoteItem)
    (fid : String) (h : usableId it.id = some fid) :
    calculate_folder_size B pf (fuel + 1) it =
      let fd := get_folder_children B pf fid
      let subs := fd.2.map (fun d => calculate_folder_size B pf fuel d)
      .mk it.id it.webUrl it.name
        (sumItemSizes fd.1 + sumTotals subs)
        ((fd.1.length : Int) + sumFileCounts subs)
        ((fd.2.length : Int) + sumFolderCounts subs)
        (fd.1.map toFileRecord) subs := by
  simp only [calculate_folder_size, h, emptyResult]
  rw [processFiles_mk]
  simp only [setFolderCount]
  rw [foldl_addSubfolder_mk]
  simp

/-- When the id is unusable the walk returns the freshly initialized
result, for every backend and every fuel value. -/
theorem calculate_no_id (B : Backend) (pf fuel : Nat) (it : RemoteItem)
    (h : usableId it.id = none) :
    calculate_folder_size B pf fuel it = emptyResult it := by
  cases fuel with
  | zero => rfl
  | succ fuel => simp [calculate_folder_size, h]

/-- The identity fields of a node always come from the folder item itself. -/
theorem calculate_base_fields (B : Backend) (pf fuel : Nat) (it : RemoteItem) :
    (calculate_folder_size B pf fuel it).id = it.id ∧
    (calculate_folder_size B pf fuel it).path = it.webUrl ∧
    (calculate_folder_size B pf fuel it).name = it.name := by
  cases fuel with
  | zero => exact ⟨rfl, rfl, rfl⟩
  | succ fuel =>
    cases h : usableId it.id with
    | none => rw [calculate_no_id B pf _ it h]; exact ⟨rfl, rfl, rfl⟩
    | some fid => rw [calculate_succ B pf fuel it fid h]; exact ⟨rfl, rfl, rfl⟩

theorem AllNodes.here {P : ReportNode → Prop} {n : ReportNode}
    (h : AllNodes P n) : P n := by
  cases h with | node _ hp _ => exact hp

theorem AllNodes.children {P : ReportNode → Prop} {n : ReportNode}
    (h : AllNodes P n) : ∀ s ∈ n.subfolders, AllNodes P s := by
  cases h with | node _ _ hs => exact hs

theorem sumFileSizes_map_toFileRecord (l : List RemoteItem) :
    sumFileSizes (l.map toFileRecord) = sumItemSizes l := by
  simp [sumFileSizes, sumItemSizes, List.map_map, toFileRecord,
    Function.comp_def]

/-- C1. Aggregation law: for every ReportNode in any tree produced by the
walk (any backend, any page budget, any recursion fuel), `total_size` is
the sum of its own file sizes plus the subfolder totals, `file_count` is
the number of its own files plus the subfolder file counts, and
`folder_count` is the number of subfolders plus the subfolder folder
counts. -/
theorem claim1_aggregation_law (B : Backend) (pf fuel : Nat) (it : RemoteItem) :
    AllNodes aggOk (calculate_folder_size B pf fuel it) := by
  induction fuel generalizing it with
  | zero =>
    refine .node _ ?_ ?_
    · exact ⟨rfl, rfl, rfl⟩
    · intro s hs
      simp [calculate_folder_size, emptyResult] at hs
  | succ fuel ih =>
    cases h : usableId it.id with
    | none =>
      rw [calculate_no_id B pf _ it h]
      refine .node _ ⟨rfl, rfl, rfl⟩ ?_
      intro s hs
      simp [emptyResult] at hs
    | some fid =>
      rw [calculate_succ B pf fuel it fid h]
      refine .node _ ?_ ?_
      · refine ⟨?_, ?_, ?_⟩
        · simp [aggOk, sumFileSizes_map_toFileRecord]
        · simp
        · simp
      · intro s hs
        simp only [ReportNode.subfolders_mk, List.mem_map] at hs
        obtain ⟨d, _, rfl⟩ := hs
        exact ih d

theorem getChildrenLoop_eq (B : Backend) (fid : String) :
    ∀ (fuel : Nat) (cur : Option String) (files folders : List RemoteItem),
      getChildrenLoop B fid fuel cur files folders =
        (files ++ (fetchedFrom B fid fuel cur).filter isFileItem,
         folders ++ (fetchedFrom B fid fuel cur).filter keepFolderItem) := by
  intro fuel
  induction fuel with
  | zero => intro cur files folders; simp [getChildrenLoop, fetchedFrom]
  | succ fuel ih =>
    intro cur files folders
    simp only [getChildrenLoop, fetchedFrom]
    cases B.listChildren fid cur with
    | err => simp
    | ok items next =>
      cases next with
      | none => simp
      | some u => simp [ih, List.filter_append]

/-- The fetched `files`/`folders` are exactly the file items and the
admitted folder items of the delivered pages, in delivery order. -/
theorem get_folder_children_eq (B : Backend) (fuel : Nat) (fid : String) :
    get_folder_children B fuel fid =
      ((fetchedItems B fuel fid).filter isFileItem,
       (fetchedItems B fuel fid).filter keepFolderItem) := by
  unfold get_folder_children fetchedItems
  rw [getChildrenLoop_eq]
  simp

/-! ### Claim C2: filter exclusion -/
/-- C2. Filter exclusion: in every tree the walk produces, no node's
`subfolders` contains a folder whose name starts with `_` or equals
`Forms` (such folders are never admitted, hence never visited and never
contribute); and the file side of the page fetcher admits every file item
of every delivered page, with no condition on its name. -/
theorem claim2_filter_exclusion (B : Backend) (pf fuel : Nat) (it : RemoteItem) :
    AllNodes (fun n => ∀ s ∈ n.subfolders,
        startswith s.name "_" = false ∧ s.name ≠ "Forms")
      (calculate_folder_size B pf fuel it) ∧
    ∀ fid, (get_folder_children B pf fid).1 =
      (fetchedItems B pf fid).filter isFileItem := by
  constructor
  · induction fuel generalizing it with
    | zero =>
      refine .node _ ?_ ?_
      · intro s hs; simp [calculate_folder_size, emptyResult] at hs
      · intro s hs; simp [calculate_folder_size, emptyResult] at hs
    | succ fuel ih =>
      cases h : usableId it.id with
      | none =>
        rw [calculate_no_id B pf _ it h]
        refine .node _ ?_ ?_ <;> (intro s hs; simp [emptyResult] at hs)
      | some fid =>
        rw [calculate_succ B pf fuel it fid h]
        refine .node _ ?_ ?_
        · intro s hs
          simp only [ReportNode.subfolders_mk, List.mem_map] at hs
          obtain ⟨d, hd, rfl⟩ := hs
          rw [get_folder_children_eq] at hd
          simp only [List.mem_filter] at hd
          have hk := hd.2
          simp only [keepFolderItem, Bool.and_eq_true, Bool.not_eq_true',
            Bool.or_eq_false_iff] at hk
          have hname := (calculate_base_fields B pf fuel d).2.2
          rw [hname]
          refine ⟨hk.2.1, ?_⟩
          have := hk.2.2
          simpa using this
        · intro s hs
          simp only [ReportNode.subfolders_mk, List.mem_map] at hs
          obtain ⟨d, _, rfl⟩ := hs
          exact ih d
  · intro fid
    rw [get_folder_children_eq]

theorem fetchedFrom_of_serves (B : Backend) (fid : String) :
    ∀ (ps : List (List RemoteItem)) (cur : Option String) (fuel : Nat),
      ServesFrom B fid cur ps → ps.length ≤ fuel →
      fetchedFrom B fid fuel cur = ps.flatten := by
  intro ps
  induction ps with
  | nil => intro cur fuel hs; exact absurd hs not_false
  | cons p rest ih =>
    intro cur fuel hs hlen
    cases fuel with
    | zero => simp at hlen
    | succ fuel =>
      cases rest with
      | nil =>
        simp only [ServesFrom] at hs
        simp [fetchedFrom, hs]
      | cons q rest' =>
        simp only [ServesFrom] at hs
        obtain ⟨c, hc, hrest⟩ := hs
        simp only [fetchedFrom, hc]
        rw [ih (some c) fuel hrest (by simpa using Nat.le_of_succ_le_succ hlen)]
        simp

/-- C5. Pagination correctness: whenever the backend serves a folder's
children as a chained sequence of pages (each call passing the cursor
returned by the previous one, the last page returning none), the page
fetcher returns exactly the concatenation of the pages in page order —
no duplicates, no drops — partitioned into file items and admitted folder
items. -/
theorem claim5_pagination (B : Backend) (fid : String)
    (ps : List (List RemoteItem)) (fuel : Nat)
    (hserve : ServesFrom B fid none ps) (hfuel : ps.length ≤ fuel) :
    get_folder_children B fuel fid =
      (ps.flatten.filter isFileItem, ps.flatten.filter keepFolderItem) := by
  rw [get_folder_children_eq]
  unfold fetchedItems
  rw [fetchedFrom_of_serves B fid ps none fuel hserve hfuel]

theorem zeroOutList_map (badId : String) (l : List ReportNode) :
    zeroOutList badId l = l.map (zeroOut badId) := by
  induction l with
  | nil => rfl
  | cons n rest ih => rw [zeroOutList, ih, List.map_cons]

theorem zeroOut_emptyResult (badId : String) (it : RemoteItem) :
    zeroOut badId (emptyResult it) = emptyResult it := by
  rw [emptyResult, zeroOut]
  split
  · rfl
  · simp [zeroOutList, sumFileSizes, sumTotals, sumFileCounts, sumFolderCounts]

theorem getChildrenLoop_congr (B B' : Backend) (fid : String)
    (h : ∀ cur, B'.listChildren fid cur = B.listChildren fid cur) :
    ∀ (fuel : Nat) (cur : Option String) (files folders : List RemoteItem),
      getChildrenLoop B' fid fuel cur files folders =
        getChildrenLoop B fid fuel cur files folders := by
  intro fuel
  induction fuel with
  | zero => intro cur files folders; rfl
  | succ fuel ih =>
    intro cur files folders
    simp only [getChildrenLoop, h cur]
    cases B.listChildren fid cur with
    | err => rfl
    | ok items next =>
      cases next with
      | none => rfl
      | some u => exact ih (some u) _ _

theorem get_folder_children_congr (B B' : Backend) (pf : Nat) (fid : String)
    (h : ∀ cur, B'.listChildren fid cur = B.listChildren fid cur) :
    get_folder_children B' pf fid = get_folder_children B pf fid :=
  getChildrenLoop_congr B B' fid h pf none [] []

/-- If the two backends agree on every folder id that the walk under `B`
touches, the walk under `B'` produces the identical tree. -/
theorem calculate_congr (B B' : Backend) (pf : Nat) :
    ∀ (fuel : Nat) (it : RemoteItem),
      (∀ fid cur, fid ∈ walkIds B pf fuel it →
        B'.listChildren fid cur = B.listChildren fid cur) →
      calculate_folder_size B' pf fuel it = calculate_folder_size B pf fuel it := by
  intro fuel
  induction fuel with
  | zero => intro it _; rfl
  | succ fuel ih =>
    intro it hagree
    cases h : usableId it.id with
    | none => rw [calculate_no_id B pf _ it h, calculate_no_id B' pf _ it h]
    | some fid =>
      have hfid : ∀ cur, B'.listChildren fid cur = B.listChildren fid cur := by
        intro cur
        refine hagree fid cur ?_
        simp [walkIds, h]
      have hch : get_folder_children B' pf fid = get_folder_children B pf fid :=
        get_folder_children_congr B B' pf fid hfid
      rw [calculate_succ B pf fuel it fid h, calculate_succ B' pf fuel it fid h, hch]
      have hsub : ∀ d ∈ (get_folder_children B pf fid).2,
          calculate_folder_size B' pf fuel d = calculate_folder_size B pf fuel d := by
        intro d hd
        refine ih d ?_
        intro fid' cur' hmem
        refine hagree fid' cur' ?_
        simp only [walkIds, h, List.mem_cons, List.mem_flatten]
        right
        exact ⟨walkIds B pf fuel d, List.mem_map_of_mem _ hd, hmem⟩
      have hmap : List.map (fun d => calculate_folder_size B' pf fuel d)
            (get_folder_children B pf fid).2 =
          List.map (fun d => calculate_folder_size B pf fuel d)
            (get_folder_children B pf fid).2 :=
        List.map_congr_left hsub
      simp only [hmap]

theorem usableId_eq_some {o : Option String} {fid : String}
    (h : usableId o = some fid) : o = some fid := by
  cases o with
  | none => simp [usableId] at h
  | some s =>
    simp only [usableId] at h
    split at h
    · exact absurd h (by simp)
    · simpa using h

theorem get_folder_children_err (B : Backend) (pf : Nat) (fid : String)
    (h : B.listChildren fid none = .err) :
    get_folder_children B pf fid = ([], []) := by
  cases pf with
  | zero => rfl
  | succ pf => simp [get_folder_children, getChildrenLoop, h]

/-- A walk against a backend that fails `listChildren` on `badId` before
any page equals the re-aggregation of the unfailed walk with the `badId`
subtree zeroed out. -/
theorem calculate_zeroOut (B B' : Backend) (pf : Nat) (badId : String)
    (hbad : B'.listChildren badId none = .err)
    (hagree : ∀ fid cur, fid ≠ badId →
      B'.listChildren fid cur = B.listChildren fid cur) :
    ∀ (fuel : Nat) (it : RemoteItem),
      calculate_folder_size B' pf fuel it =
        zeroOut badId (calculate_folder_size B pf fuel it) := by
  intro fuel
  induction fuel with
  | zero => intro it; exact (zeroOut_emptyResult badId it).symm
  | succ fuel ih =>
    intro it
    cases h : usableId it.id with
    | none =>
      rw [calculate_no_id B pf _ it h, calculate_no_id B' pf _ it h,
        zeroOut_emptyResult]
    | some fid =>
      have hit : it.id = some fid := usableId_eq_some h
      by_cases hb : fid = badId
      · subst hb
        rw [calculate_succ B' pf fuel it fid h,
          get_folder_children_err B' pf fid hbad]
        obtain ⟨hid, hpath, hname⟩ := calculate_base_fields B pf (fuel + 1) it
        cases hn : calculate_folder_size B pf (fuel + 1) it with
        | mk i2 p2 nm2 ts2 fc2 dc2 fs2 sf2 =>
          rw [hn] at hid hpath hname
          simp only [ReportNode.id_mk, ReportNode.path_mk,
            ReportNode.name_mk] at hid hpath hname
          rw [zeroOut, if_pos (by rw [hid, hit])]
          simp [hid, hpath, hname, hit, sumItemSizes, sumTotals,
            sumFileCounts, sumFolderCounts]
      · have hfid : ∀ cur, B'.listChildren fid cur = B.listChildren fid cur :=
          fun cur => hagree fid cur hb
        have hch := get_folder_children_congr B B' pf fid hfid
        rw [calculate_succ B' pf fuel it fid h,
          calculate_succ B pf fuel it fid h, hch]
        simp only []
        rw [zeroOut,
          if_neg (by rw [hit]; intro hcon; exact hb (by simpa using hcon))]
        simp [ih, zeroOutList_map, List.map_map, Function.comp_def,
          sumFileSizes_map_toFileRecord]

/-- C3 (amended).  If the backend fails `listChildren` for one specific
folder identifier before any page: (i) every walk whose touched folder ids
avoid that identifier — in particular every sibling and uncle subtree —
produces exactly the tree it would have produced without the failure, and
(ii) every walk produces the re-aggregation of the unfailed tree in which
the failed folder's node keeps its identity fields but has
`total_size = file_count = folder_count = 0` and empty `files`/`subfolders`
(so each ancestor's totals equal those computed with the failed subtree
contributing zero); the walk never aborts: it always returns a tree. -/
theorem claim3_failure_isolation (B B' : Backend) (pf : Nat) (badId : String)
    (hbad : B'.listChildren badId none = PageResult.err)
    (hagree : ∀ fid cur, fid ≠ badId →
      B'.listChildren fid cur = B.listChildren fid cur) :
    (∀ fuel it, badId ∉ walkIds B pf fuel it →
      calculate_folder_size B' pf fuel it = calculate_folder_size B pf fuel it) ∧
    (∀ fuel it, calculate_folder_size B' pf fuel it =
      zeroOut badId (calculate_folder_size B pf fuel it)) := by
  constructor
  · intro fuel it hmem
    refine calculate_congr B B' pf fuel it ?_
    intro fid cur hfid
    refine hagree fid cur ?_
    rintro rfl
    exact hmem hfid
  · exact calculate_zeroOut B B' pf badId hbad hagree

/-- C3 counterexample: with `listChildren` failing for folder `A`
(id `a`), the root — an ancestor of `A` — does not retain the value it
would have had without the failure: its `total_size` is 10 instead of
110.  So "all sibling, ancestor, and uncle subtrees retain the values
they would have had without that failure" is false for ancestors. -/
theorem claim3_counterexample :
    (calculate_folder_size demoBFail 1 2 itRoot).total_size = 10 ∧
    (calculate_folder_size demoB 1 2 itRoot).total_size = 110 ∧
    (calculate_folder_size demoBFail 1 2 itRoot).total_size ≠
      (calculate_folder_size demoB 1 2 itRoot).total_size :=
  ⟨rfl, rfl, by decide⟩

/-- Witness for C3: the sibling subtree `C` is unchanged by the failure of
`A`, and the whole tree equals the zeroed-out re-aggregation. -/
theorem claim3_witness :
    calculate_folder_size demoBFail 1 2 itC =
      calculate_folder_size demoB 1 2 itC ∧
    calculate_folder_size demoBFail 1 2 itRoot =
      zeroOut "a" (calculate_folder_size demoB 1 2 itRoot) := by
  have hagree : ∀ fid cur, fid ≠ "a" →
      demoBFail.listChildren fid cur = demoB.listChildren fid cur := by
    intro fid cur hne
    show (if fid = "a" then PageResult.err else demoB.listChildren fid cur) = _
    rw [if_neg hne]
  have h := claim3_failure_isolation demoB demoBFail 1 "a" rfl hagree
  exact ⟨h.1 2 itC (by decide), h.2 2 itRoot⟩

/-- C9 counterexample: a folder entry with no resolvable identifier is
not skipped by the code: its zero node is appended to the parent's
`subfolders` and it is counted once in the parent's `folder_count`. -/
theorem claim9_counterexample :
    (calculate_folder_size noIdB 1 2 itParent).folder_count = 1 ∧
    (calculate_folder_size noIdB 1 2 itParent).subfolders =
      [emptyResult itNoId] :=
  ⟨rfl, rfl⟩

/-- C9 (amended).  A folder entry with no usable identifier is not
descended into: its node is the freshly initialized empty result — zero
`total_size`, `file_count` and `folder_count`, empty `files` and
`subfolders` — and no children are fetched for it (the result does not
depend on the backend or on the fuel).  It still appears in the parent's
`subfolders` and adds one to the parent's `folder_count` (see the
counterexample), but contributes nothing to any ancestor's `total_size`
or `file_count`. -/
theorem claim9_no_id (B B' : Backend) (pf pf' fuel fuel' : Nat)
    (it : RemoteItem) (h : usableId it.id = none) :
    calculate_folder_size B pf fuel it = emptyResult it ∧
    calculate_folder_size B pf fuel it = calculate_folder_size B' pf' fuel' it := by
  rw [calculate_no_id B pf fuel it h, calculate_no_id B' pf' fuel' it h]
  exact ⟨rfl, rfl⟩

/-- Witness for C9: the no-id child of `noIdB` aggregates to the empty
result, independently of backend and fuel. -/
theorem claim9_witness :
    calculate_folder_size noIdB 1 2 itNoId = emptyResult itNoId ∧
    calculate_folder_size noIdB 1 2 itNoId =
      calculate_folder_size demoB 0 0 itNoId :=
  claim9_no_id noIdB demoB 1 0 2 0 itNoId rfl

theorem fetchedFrom_sizes_nonneg (B : Backend) (hB : SizesNonneg B)
    (fid : String) :
    ∀ (fuel : Nat) (cur : Option String),
      ∀ x ∈ fetchedFrom B fid fuel cur, 0 ≤ x.size := by
  intro fuel
  induction fuel with
  | zero => intro cur x hx; simp [fetchedFrom] at hx
  | succ fuel ih =>
    intro cur x hx
    simp only [fetchedFrom] at hx
    cases hc : B.listChildren fid cur with
    | err => rw [hc] at hx; simp at hx
    | ok items next =>
      rw [hc] at hx
      cases next with
      | none => exact hB fid cur items none hc x hx
      | some u =>
        simp only [List.mem_append] at hx
        rcases hx with hx | hx
        · exact hB fid cur items (some u) hc x hx
        · exact ih (some u) x hx

/-- C10. Totality: for every folder item, every backend behavior (any
mixture of successful pages, error statuses and exceptions, the latter two
both embedded as `PageResult.err`) and every fuel, the aggregator returns
a `ReportNode` — it never aborts — and, provided the backend delivers
non-negative file sizes, every node of the returned tree has non-negative
`total_size`, `file_count` and `folder_count`. -/
theorem claim10_totality (B : Backend) (pf fuel : Nat) (it : RemoteItem)
    (hB : SizesNonneg B) :
    AllNodes countersOk (calculate_folder_size B pf fuel it) := by
  induction fuel generalizing it with
  | zero =>
    refine .node _ ⟨le_refl 0, le_refl 0, le_refl 0⟩ ?_
    intro s hs
    simp [calculate_folder_size, emptyResult] at hs
  | succ fuel ih =>
    cases h : usableId it.id with
    | none =>
      rw [calculate_no_id B pf _ it h]
      refine .node _ ⟨le_refl 0, le_refl 0, le_refl 0⟩ ?_
      intro s hs
      simp [emptyResult] at hs
    | some fid =>
      rw [calculate_succ B pf fuel it fid h]
      have hfiles : 0 ≤ sumItemSizes (get_folder_children B pf fid).1 := by
        refine List.sum_nonneg ?_
        intro x hx
        simp only [List.mem_map] at hx
        obtain ⟨y, hy, rfl⟩ := hx
        rw [get_folder_children_eq] at hy
        exact fetchedFrom_sizes_nonneg B hB fid pf none y
          (List.mem_filter.mp hy).1
      refine .node _ ?_ ?_
      · refine ⟨?_, ?_, ?_⟩
        · refine add_nonneg hfiles (List.sum_nonneg ?_)
          intro x hx
          simp only [List.map_map, List.mem_map, Function.comp_apply] at hx
          obtain ⟨d, _, rfl⟩ := hx
          exact ((ih d).here).1
        · refine add_nonneg (Int.ofNat_nonneg _) (List.sum_nonneg ?_)
          intro x hx
          simp only [List.map_map, List.mem_map, Function.comp_apply] at hx
          obtain ⟨d, _, rfl⟩ := hx
          exact ((ih d).here).2.1
        · refine add_nonneg (Int.ofNat_nonneg _) (List.sum_nonneg ?_)
          intro x hx
          simp only [List.map_map, List.mem_map, Function.comp_apply] at hx
          obtain ⟨d, _, rfl⟩ := hx
          exact ((ih d).here).2.2
      · intro s hs
        simp only [ReportNode.subfolders_mk, List.mem_map] at hs
        obtain ⟨d, _, rfl⟩ := hs
        exact ih d

/-- Witness for C5: three pages of sizes 2, 2, 1 with no failures yield
the five entries in page order, no duplicates, no drops. -/
theorem claim5_witness :
    ServesFrom pagedB "f" none [[pgF1, pgF2], [pgD1, pgF3], [pgD2]] ∧
    get_folder_children pagedB 3 "f" =
      (([[pgF1, pgF2], [pgD1, pgF3], [pgD2]] : List (List RemoteItem)).flatten.filter
          isFileItem,
        ([[pgF1, pgF2], [pgD1, pgF3], [pgD2]] : List (List RemoteItem)).flatten.filter
          keepFolderItem) ∧
    (get_folder_children pagedB 3 "f").1.length +
      (get_folder_children pagedB 3 "f").2.length = 5 := by
  have hserve : ServesFrom pagedB "f" none [[pgF1, pgF2], [pgD1, pgF3], [pgD2]] :=
    ⟨"c1", rfl, "c2", rfl, rfl⟩
  exact ⟨hserve, claim5_pagination pagedB "f" _ 3 hserve (by decide), by decide⟩

/-- C4. Evaluation at the failing input: in `sharepoint_folder_size.py`,
`analyze_site` surfaces `None` when site/drive resolution fails and when
the root folder item cannot be resolved; but in
`sharepoint_folder_size_v2.py`, `analyze_folder` on a root path the
backend cannot resolve (not-found on every request) returns a default
empty report with zero totals instead of an explicit failure. -/
theorem claim4_root_failure :
    analyze_site failResolver demoB 1 1 "https://x/sites/S" "Docs" = none ∧
    analyze_site itemFailResolver demoB 1 1 "https://x/sites/S" "Docs" = none ∧
    V2.analyze_folder notFoundRest 1 "/x/Nope" =
      some (VNode.mk "/x/Nope" "Nope" 0 0 0 [] []) :=
  ⟨rfl, rfl, rfl⟩

/-- C6. Evaluation at the failing input: walking `gaBackend` from the root
with the path-addressed variant yields `total_size = 0`, because the
recursive call for subfolder `B` of `A` passes the bare name `B`
(`subfolder_path = folder_name`), which resolves against the drive root
and fails — even though the subfolder's own children (`A/B`) hold a
100-byte file, as the direct fetch shows.  The id-addressed variant
(`sharepoint_folder_size.py`), which recurses on the subfolder item
itself, returns 100 on the same hierarchy. -/
theorem claim6_wrong_recursion_target :
    (GA.calculate_folder_size gaBackend 1 3 "" none).total_size = 0 ∧
    gaBackend.listByPath (some "B") none = PageResult.err ∧
    ((GA.get_folder_items gaBackend 1 "A/B").1.map RemoteItem.size).sum = 100 ∧
    (calculate_folder_size idBackend 1 3 itGaRoot).total_size = 100 :=
  ⟨rfl, rfl, rfl, rfl⟩

/-- Witness for C10 on a concrete backend delivering one 10-byte file. -/
theorem claim10_witness :
    SizesNonneg wB ∧
    AllNodes countersOk (calculate_folder_size wB 1 1 itRoot) := by
  have hB : SizesNonneg wB := by
    intro fid cur items next hok x hx
    injection hok with h1 h2
    subst h1
    simp only [List.mem_singleton] at hx
    subst hx
    decide
  exact ⟨hB, claim10_totality wB 1 1 itRoot hB⟩

theorem deserializeFile_serializeFile (f : FileRecord) :
    deserializeFile (serializeFile f) = some f := by
  cases f
  rfl

theorem deserializeFiles_serializeFiles (fs : List FileRecord) :
    deserializeFiles (serializeFiles fs) = some fs := by
  induction fs with
  | nil => rfl
  | cons f rest ih =>
    rw [serializeFiles, deserializeFiles, deserializeFile_serializeFile f, ih]

theorem deserializeId_serializeId (i : Option String) :
    deserializeId (serializeId i) = some i := by
  cases i <;> rfl

mutual
theorem deserializeNode_serializeNode :
    ∀ n : ReportNode, deserializeNode (serializeNode n) = some n
  | .mk i p nm ts fc dc fs sf => by
    rw [serializeNode, deserializeNode, deserializeId_serializeId,
      deserializeFiles_serializeFiles, deserializeNodes_serializeNodes sf]
theorem deserializeNodes_serializeNodes :
    ∀ l : List ReportNode, deserializeNodes (serializeNodes l) = some l
  | [] => rfl
  | n :: rest => by
    rw [serializeNodes, deserializeNodes, deserializeNode_serializeNode n,
      deserializeNodes_serializeNodes rest]
end

/-- C7. Structured-serialize round trip: deserializing the JSON
serialization of any report tree — in particular any tree produced by a
walk, of any depth, with mixed files and folders — reproduces the
identical tree: same nesting, same field values, same ordering of files
and subfolders. -/
theorem claim7_roundtrip (n : ReportNode) :
    deserializeNode (serializeNode n) = some n :=
  deserializeNode_serializeNode n

theorem foldl_fileRow (fmt : Int → String) (fs : List FileRecord)
    (acc : List (List String)) :
    fs.foldl (fun a f => a ++ [fileRow fmt f]) acc = acc ++ fs.map (fileRow fmt) := by
  induction fs generalizing acc with
  | nil => simp
  | cons f rest ih => simp [ih, List.append_assoc]

mutual
theorem write_folder_data_eq (fmt : Int → String) (acc : List (List String)) :
    ∀ n : ReportNode, write_folder_data fmt acc n = acc ++ flattenSpec fmt n
  | .mk i p nm ts fc dc fs sf => by
    rw [write_folder_data, flattenSpec]
    rw [foldl_fileRow,
      writeSubfolders_eq fmt
        (acc ++ [folderRow fmt (.mk i p nm ts fc dc fs sf)] ++ fs.map (fileRow fmt)) sf]
    simp [List.append_assoc]
theorem writeSubfolders_eq (fmt : Int → String) (acc : List (List String)) :
    ∀ l : List ReportNode, writeSubfolders fmt acc l = acc ++ flattenSpecList fmt l
  | [] => by rw [writeSubfolders, flattenSpecList]; simp
  | s :: rest => by
    rw [writeSubfolders, flattenSpecList, write_folder_data_eq fmt acc s,
      writeSubfolders_eq fmt (acc ++ flattenSpec fmt s) rest]
    simp [List.append_assoc]
end

/-- C8. Tabular flatten shape and order: the CSV export is the header row
followed by a pre-order traversal that emits, for every folder, one row
with that folder's own aggregated `total_size`, `file_count` and
`folder_count`, immediately followed by one row per direct file with the
file's own size and zero in both count columns, and then the rows of each
subfolder recursively, in subfolder order. -/
theorem claim8_tabular_flatten (fmt : Int → String) (n : ReportNode) :
    export_to_csv fmt n = csvHeader :: flattenSpec fmt n := by
  rw [export_to_csv, write_folder_data_eq fmt [csvHeader] n]
  rfl
